import Mathlib

/-!
Shallow embedding of the wallet ledger of `src/users/wallets/models.py`
(classes `UserWallet` and `WalletTransaction`) and of the get-or-create
endpoint `UserWalletViewSet.my_wallet` of `src/users/wallets/views.py`.

Conventions of the embedding:
* `Decimal` amounts (two decimal places) are represented as `Int` values in
  cents; all source arithmetic and comparisons on them are exact, so nothing
  is lost.
* `datetime` values are a record holding the POSIX seconds and the calendar
  date components that the Django `__date`, `__year` and `__month` lookups
  extract.
* Each Django model instance becomes a record; the ledger rows of a wallet
  (`WalletTransaction.objects.filter(wallet=self)`) are carried as the list
  `transactions` of the wallet record, appended in creation order, and the
  auto-increment primary key of that table is carried as `next_txn_id`.
  Generic audit columns (`created_by`, `updated_by`, `updated_at`) and the
  opaque `metadata` JSON field play no role in any wallet operation and are
  not represented; `is_active` (from `StatusMixin`, default `True`) is,
  because `can_spend` reads it.
* A Python method that mutates `self` and may `raise ValueError` becomes a
  function returning `(new state, Option String)`: `none` means the method
  returned normally, `some msg` means it raised `ValueError(msg)`; since
  every `raise` in the source happens before the first field assignment,
  the state component in the error case is the unchanged input.
-/

namespace LoudWallet

/-- Calendar date as extracted by the Django `__date` / `__year` / `__month`
lookups from a stored datetime. -/
structure CalDate where
  year : Int
  month : Int
  day : Int
deriving DecidableEq

/-- A stored datetime: POSIX seconds together with its calendar date. -/
structure Timestamp where
  sec : Int
  date : CalDate
deriving DecidableEq

/-- One row of `wallet_transactions` (`class WalletTransaction`), fields as in
the source model; `amount` and `fee` carry a `MinValueValidator(0)` in the
model and `status` defaults to `completed`. -/
structure WalletTransaction where
  id : Nat
  transaction_type : String
  amount : Int
  balance_after : Int
  status : String := "completed"
  description : String := ""
  source : String := ""
  destination : String := ""
  reference_id : String := ""
  fee : Int := 0
  created_at : Timestamp
deriving DecidableEq

/-- One row of `user_wallets` (`class UserWallet`).  `user_id` and `username`
stand for the `OneToOneField user` target; field defaults are the model
(`currency=CNY`, zero balances, `wallet_status=normal`,
`daily_limit=10000.00`, `monthly_limit=100000.00`, `is_active=True`). -/
structure UserWallet where
  user_id : Nat
  username : String := ""
  currency : String := "CNY"
  balance : Int := 0
  frozen_balance : Int := 0
  total_income : Int := 0
  total_expense : Int := 0
  payment_password : String := ""
  wallet_status : String := "normal"
  daily_limit : Int := 1000000
  monthly_limit : Int := 10000000
  is_verified : Bool := false
  last_transaction_at : Option Timestamp := none
  is_active : Bool := true
  transactions : List WalletTransaction := []
  next_txn_id : Nat := 0
deriving DecidableEq

/-- the Python `s or dflt` on strings: the default kicks in on the empty
string. -/
def strOrDefault (s dflt : String) : String :=
  if s = "" then dflt else s

/-- The Python conditional f-string pattern used by the freeze/unfreeze
descriptions: the tag alone when the reason is empty, else the tag, a
colon-space, and the reason. -/
def descWithReason (tag reason : String) : String :=
  if reason = "" then tag else tag ++ ": " ++ reason

/-- The refund description: 退款 with the reason when one is given, else
退款 with the original transaction id in parentheses. -/
def refundDesc (reason : String) (origId : Nat) : String :=
  if reason = "" then "退款 (原交易: " ++ toString origId ++ ")"
  else "退款: " ++ reason

namespace UserWallet

/-- `total_balance` property: `self.balance + self.frozen_balance`. -/
def total_balance (w : UserWallet) : Int :=
  w.balance + w.frozen_balance

/-- `available_balance` property: alias for `self.balance`. -/
def available_balance (w : UserWallet) : Int :=
  w.balance

/-- `get_wallet_status_display()`: the label of `wallet_status` among
`WALLET_STATUS_CHOICES` (Django falls back to the raw value). -/
def get_wallet_status_display (w : UserWallet) : String :=
  if w.wallet_status = "normal" then "正常"
  else if w.wallet_status = "frozen" then "冻结"
  else if w.wallet_status = "suspended" then "暂停"
  else if w.wallet_status = "closed" then "关闭"
  else w.wallet_status

/-- `can_spend(amount)`: returns `(ok, reason)` exactly in the source
order of checks. -/
def can_spend (w : UserWallet) (amount : Int) : Bool × String :=
  if w.wallet_status ≠ "normal" then
    (false, "钱包状态异常：" ++ w.get_wallet_status_display)
  else if w.is_active = false then
    (false, "钱包已被停用")
  else if w.balance < amount then
    (false, "余额不足")
  else
    (true, "可以消费")

/-- `create_transaction(transaction_type, amount, **kwargs)`: inserts one
`WalletTransaction` row with `balance_after=self.balance`, the default
status `completed`, and the next primary key; `created_at` is the database
time (`auto_now_add`).  Returns the updated wallet and the created row. -/
def create_transaction (w : UserWallet) (ttype : String) (amount : Int)
    (desc src dst ref : String) (now : Timestamp) :
    UserWallet × WalletTransaction :=
  let t : WalletTransaction :=
    { id := w.next_txn_id
      transaction_type := ttype
      amount := amount
      balance_after := w.balance
      description := desc
      source := src
      destination := dst
      reference_id := ref
      created_at := now }
  ({ w with transactions := w.transactions ++ [t]
            next_txn_id := w.next_txn_id + 1 }, t)

/-- `freeze_amount(amount, reason)`: guards, then moves `amount` from
`balance` to `frozen_balance` and records a `freeze` entry. -/
def freeze_amount (w : UserWallet) (amount : Int) (reason : String)
    (now : Timestamp) : UserWallet × Option String :=
  if amount ≤ 0 then (w, some "冻结金额必须大于0")
  else if w.balance < amount then (w, some "可用余额不足，无法冻结")
  else
    let w1 := { w with balance := w.balance - amount
                       frozen_balance := w.frozen_balance + amount }
    let w2 := (w1.create_transaction "freeze" amount
      (descWithReason "冻结金额" reason) "" "" "" now).1
    (w2, none)

/-- `unfreeze_amount(amount, reason)`: guards, then moves `amount` from
`frozen_balance` back to `balance` and records an `unfreeze` entry. -/
def unfreeze_amount (w : UserWallet) (amount : Int) (reason : String)
    (now : Timestamp) : UserWallet × Option String :=
  if amount ≤ 0 then (w, some "解冻金额必须大于0")
  else if w.frozen_balance < amount then (w, some "冻结余额不足，无法解冻")
  else
    let w1 := { w with frozen_balance := w.frozen_balance - amount
                       balance := w.balance + amount }
    let w2 := (w1.create_transaction "unfreeze" amount
      (descWithReason "解冻金额" reason) "" "" "" now).1
    (w2, none)

/-- `deposit(amount, source, description, reference_id)`: only guard is
`amount > 0`; credits `balance` and `total_income`, stamps
`last_transaction_at`, records a `deposit` entry. -/
def deposit (w : UserWallet) (amount : Int) (src desc ref : String)
    (now : Timestamp) : UserWallet × Option String :=
  if amount ≤ 0 then (w, some "充值金额必须大于0")
  else
    let w1 := { w with balance := w.balance + amount
                       total_income := w.total_income + amount
                       last_transaction_at := some now }
    let w2 := (w1.create_transaction "deposit" amount
      (strOrDefault desc "账户充值") src "" ref now).1
    (w2, none)

/-- `withdraw(amount, destination, description, reference_id)`: guards
`amount > 0` then `can_spend`; debits `balance`, credits `total_expense`,
records a `withdraw` entry. -/
def withdraw (w : UserWallet) (amount : Int) (dst desc ref : String)
    (now : Timestamp) : UserWallet × Option String :=
  if amount ≤ 0 then (w, some "提现金额必须大于0")
  else if (w.can_spend amount).1 = false then
    (w, some ("无法提现: " ++ (w.can_spend amount).2))
  else
    let w1 := { w with balance := w.balance - amount
                       total_expense := w.total_expense + amount
                       last_transaction_at := some now }
    let w2 := (w1.create_transaction "withdraw" amount
      (strOrDefault desc "账户提现") "" dst ref now).1
    (w2, none)

/-- `transfer_to(target_wallet, amount, description, reference_id)`: guards
`amount > 0`, currency match, then `can_spend` on the sender; debits the
sender, credits the target, records a `transfer_out` entry on the sender and
a `transfer_in` entry on the target, all in one atomic block. -/
def transfer_to (w target : UserWallet) (amount : Int) (desc ref : String)
    (now : Timestamp) : (UserWallet × UserWallet) × Option String :=
  if amount ≤ 0 then ((w, target), some "转账金额必须大于0")
  else if target.currency ≠ w.currency then
    ((w, target), some "货币类型不匹配，无法转账")
  else if (w.can_spend amount).1 = false then
    ((w, target), some ("无法转账: " ++ (w.can_spend amount).2))
  else
    let w1 := { w with balance := w.balance - amount
                       total_expense := w.total_expense + amount
                       last_transaction_at := some now }
    let t1 := { target with balance := target.balance + amount
                            total_income := target.total_income + amount
                            last_transaction_at := some now }
    let w2 := (w1.create_transaction "transfer_out" amount
      (strOrDefault desc ("转账给 " ++ target.username))
      "" ("user_" ++ toString target.user_id) ref now).1
    let t2 := (t1.create_transaction "transfer_in" amount
      (strOrDefault desc ("来自 " ++ w.username ++ " 的转账"))
      ("user_" ++ toString w.user_id) "" ref now).1
    ((w2, t2), none)

/-- `get_daily_spent(date)`: sum of `amount` over this wallet entries of
type `withdraw`/`transfer_out`/`payment` whose `created_at__date` equals
`date`. -/
def get_daily_spent (w : UserWallet) (date : CalDate) : Int :=
  ((w.transactions.filter (fun t =>
      ["withdraw", "transfer_out", "payment"].contains t.transaction_type
        && t.created_at.date == date)).map
    (fun t => t.amount)).sum

/-- `get_monthly_spent(year, month)`: sum of `amount` over this wallet
entries of type `withdraw`/`transfer_out`/`payment` whose
`created_at__year` and `created_at__month` equal the arguments. -/
def get_monthly_spent (w : UserWallet) (year month : Int) : Int :=
  ((w.transactions.filter (fun t =>
      ["withdraw", "transfer_out", "payment"].contains t.transaction_type
        && t.created_at.date.year == year
        && t.created_at.date.month == month)).map
    (fun t => t.amount)).sum

/-- `freeze_wallet(reason)`: sets `wallet_status=frozen` and records a
zero-amount `freeze_wallet` entry; no guard, balances untouched. -/
def freeze_wallet (w : UserWallet) (reason : String) (now : Timestamp) :
    UserWallet :=
  let w1 := { w with wallet_status := "frozen" }
  (w1.create_transaction "freeze_wallet" 0
    (descWithReason "钱包被冻结" reason) "" "" "" now).1

/-- `unfreeze_wallet(reason)`: sets `wallet_status=normal` and records a
zero-amount `unfreeze_wallet` entry; no guard, balances untouched. -/
def unfreeze_wallet (w : UserWallet) (reason : String) (now : Timestamp) :
    UserWallet :=
  let w1 := { w with wallet_status := "normal" }
  (w1.create_transaction "unfreeze_wallet" 0
    (descWithReason "钱包被解冻" reason) "" "" "" now).1

end UserWallet

namespace WalletTransaction

/-- `is_income` property: type among `deposit, transfer_in, refund, reward`. -/
def is_income (t : WalletTransaction) : Bool :=
  ["deposit", "transfer_in", "refund", "reward"].contains t.transaction_type

/-- `is_expense` property: type among `withdraw, transfer_out, payment,
penalty`. -/
def is_expense (t : WalletTransaction) : Bool :=
  ["withdraw", "transfer_out", "payment", "penalty"].contains t.transaction_type

/-- `can_refund()`: type among `['payment']`, status `completed`, and
`created_at >= timezone.now() - timedelta(days=30)`. -/
def can_refund (t : WalletTransaction) (now : Timestamp) : Bool :=
  ["payment"].contains t.transaction_type
    && t.status == "completed"
    && decide (t.created_at.sec ≥ now.sec - 30 * 86400)

end WalletTransaction

namespace UserWallet

/-- `WalletTransaction.process_refund(reason)` for the entry at index `i` of
the wallet ledger: guard `can_refund`, then credit the wallet by the
entry amount, set the entry status to `refunded` and record a `refund`
entry whose `reference_id` is the original entry primary key.  An index
with no row behaves as an ineligible refund. -/
def process_refund (w : UserWallet) (i : Nat) (reason : String)
    (now : Timestamp) : UserWallet × Option String :=
  match w.transactions[i]? with
  | none => (w, some "该交易不支持退款")
  | some t =>
    if t.can_refund now = false then (w, some "该交易不支持退款")
    else
      let w1 := { w with balance := w.balance + t.amount
                         total_income := w.total_income + t.amount
                         last_transaction_at := some now
                         transactions :=
                           w.transactions.set i { t with status := "refunded" } }
      let w2 := (w1.create_transaction "refund" t.amount
        (refundDesc reason t.id) "" "" (toString t.id) now).1
      (w2, none)

end UserWallet

/-- `UserWalletViewSet.my_wallet`: `UserWallet.objects.get_or_create(user=
request.user, defaults=currency CNY)` — lookup is keyed on the user alone
(the model `OneToOneField`); on a miss a fresh wallet with the model
defaults is inserted.  Returns `(wallet, new store, created)`. -/
def my_wallet (store : List (Nat × UserWallet)) (uid : Nat) (uname : String) :
    UserWallet × List (Nat × UserWallet) × Bool :=
  match store.find? (fun p => p.1 == uid) with
  | some p => (p.2, store, false)
  | none =>
      let w : UserWallet := { user_id := uid, username := uname, currency := "CNY" }
      (w, store ++ [(uid, w)], true)

/-- The `OneToOneField user` uniqueness constraint on `user_wallets`: no two
rows share an owner. -/
def UniquePerUser (store : List (Nat × UserWallet)) : Prop :=
  store.Pairwise (fun p q => p.1 ≠ q.1)

/-- States the wallet model accepts: the `MinValueValidator(0)` constraints
on `balance`, `frozen_balance` and on every ledger row's `amount`. -/
def Wf (w : UserWallet) : Prop :=
  0 ≤ w.balance ∧ 0 ≤ w.frozen_balance ∧
    ∀ t ∈ w.transactions, 0 ≤ t.amount

/-- One committed wallet operation among the mutation protocols: a deposit,
withdraw, freeze, unfreeze, either leg of a transfer, or a refund, that
returned normally. -/
inductive WStep : UserWallet → UserWallet → Prop
  | deposit (w w' : UserWallet) (a : Int) (s d r : String) (now : Timestamp) :
      w.deposit a s d r now = (w', none) → WStep w w'
  | withdraw (w w' : UserWallet) (a : Int) (ds de r : String) (now : Timestamp) :
      w.withdraw a ds de r now = (w', none) → WStep w w'
  | freeze (w w' : UserWallet) (a : Int) (re : String) (now : Timestamp) :
      w.freeze_amount a re now = (w', none) → WStep w w'
  | unfreeze (w w' : UserWallet) (a : Int) (re : String) (now : Timestamp) :
      w.unfreeze_amount a re now = (w', none) → WStep w w'
  | transferOut (w w' tgt tgt' : UserWallet) (a : Int) (de r : String)
      (now : Timestamp) :
      w.transfer_to tgt a de r now = ((w', tgt'), none) → WStep w w'
  | transferIn (w w' src src' : UserWallet) (a : Int) (de r : String)
      (now : Timestamp) :
      src.transfer_to w a de r now = ((src', w'), none) → WStep w w'
  | refund (w w' : UserWallet) (i : Nat) (re : String) (now : Timestamp) :
      w.process_refund i re now = (w', none) → WStep w w'

/-- Reachability by a finite sequence of committed wallet operations. -/
inductive WReach : UserWallet → UserWallet → Prop
  | refl (w : UserWallet) : WReach w w
  | step (w1 w2 w3 : UserWallet) : WReach w1 w2 → WStep w2 w3 → WReach w1 w3

/-! Concrete states used to instantiate the theorems below. -/

/-- A sample stored datetime (2023-11-14). -/
def ts0 : Timestamp := ⟨1700000000, ⟨2023, 11, 14⟩⟩

/-- A later datetime on the same day. -/
def ts1 : Timestamp := ⟨1700003600, ⟨2023, 11, 14⟩⟩

/-- A completed payment row eligible for refund at `ts1`. -/
def payTxn : WalletTransaction :=
  { id := 7, transaction_type := "payment", amount := 2000,
    balance_after := 10000, created_at := ts0 }

/-- A normal active wallet holding `100.00` available and `50.00` frozen,
with one completed payment row. -/
def witW : UserWallet :=
  { user_id := 1, username := "alice", balance := 10000, frozen_balance := 5000,
    transactions := [payTxn], next_txn_id := 8 }

/-- A second wallet of the same currency, the transfer target. -/
def witT : UserWallet :=
  { user_id := 2, username := "bob", balance := 3000 }

/-- A closed wallet holding `100.00`. -/
def wClosed : UserWallet :=
  { user_id := 3, username := "carol", balance := 10000,
    wallet_status := "closed" }

/-- A normal wallet that has been deactivated. -/
def wInactive : UserWallet :=
  { user_id := 4, username := "dave", balance := 10000, is_active := false }

/-- A closed wallet holding frozen funds and one completed payment row. -/
def wClosedFull : UserWallet :=
  { user_id := 6, username := "frank", balance := 10000,
    frozen_balance := 5000, wallet_status := "closed",
    transactions := [payTxn], next_txn_id := 8 }

/-- A USD wallet of owner 1, the sole row of the sample store. -/
def wUSD : UserWallet :=
  { user_id := 1, username := "alice", currency := "USD", balance := 500 }

/-- A datetime 40 days after `ts0`, outside the refund window. -/
def tsLate : Timestamp := ⟨1700000000 + 40 * 86400, ⟨2023, 12, 24⟩⟩

/-- `witW` after a committed deposit of `1.00`. -/
def witDep : UserWallet := (witW.deposit 100 "manual" "" "" ts1).1

/-- `witW` after a committed withdrawal of `30.00`. -/
def witWd : UserWallet := (witW.withdraw 3000 "manual" "" "" ts1).1

/-- `witW` after freezing `20.00`. -/
def witFr : UserWallet := (witW.freeze_amount 2000 "" ts1).1

/-- `witW` after unfreezing `10.00`. -/
def witUf : UserWallet := (witW.unfreeze_amount 1000 "" ts1).1

/-- Sender state after `witW` transfers `30.00` to `witT`. -/
def witTrS : UserWallet := (witW.transfer_to witT 3000 "" "" ts1).1.1

/-- Receiver state after `witW` transfers `30.00` to `witT`. -/
def witTrT : UserWallet := (witW.transfer_to witT 3000 "" "" ts1).1.2

/-- `witW` after refunding its payment entry at index 0. -/
def witRef : UserWallet := (witW.process_refund 0 "" ts1).1

/-! Helper lemmas shared by the claim theorems. -/

theorem can_spend_fst_true {w : UserWallet} {a : Int} :
    (w.can_spend a).1 = true ↔
      w.wallet_status = "normal" ∧ w.is_active = true ∧ a ≤ w.balance := by
  unfold UserWallet.can_spend
  split_ifs with h1 h2 h3
  · simp_all
  · simp_all
  · simp only [not_not] at h1
    simp [h1, h2, Int.not_le.mpr h3]
  · simp only [not_not] at h1
    have h2' : w.is_active = true := by simpa using h2
    simp [h1, h2', Int.not_lt.mp h3]

theorem deposit_ok {w w' : UserWallet} {a : Int} {s d r : String}
    {now : Timestamp} (h : w.deposit a s d r now = (w', none)) :
    0 < a ∧
    w'.balance = w.balance + a ∧
    w'.frozen_balance = w.frozen_balance ∧
    w'.total_income = w.total_income + a ∧
    w'.total_expense = w.total_expense ∧
    ∃ e, w'.transactions = w.transactions ++ [e] ∧
      e.transaction_type = "deposit" ∧ e.amount = a ∧
      e.balance_after = w'.balance := by
  unfold UserWallet.deposit at h
  split at h
  · exact absurd h (by simp)
  · next hle =>
    simp only [UserWallet.create_transaction, Prod.mk.injEq, and_true] at h
    subst h
    exact ⟨by omega, rfl, rfl, rfl, rfl, _, rfl, rfl, rfl, rfl⟩

theorem withdraw_ok {w w' : UserWallet} {a : Int} {ds de r : String}
    {now : Timestamp} (h : w.withdraw a ds de r now = (w', none)) :
    0 < a ∧ (w.can_spend a).1 = true ∧ a ≤ w.balance ∧
    w'.balance = w.balance - a ∧
    w'.frozen_balance = w.frozen_balance ∧
    w'.total_income = w.total_income ∧
    w'.total_expense = w.total_expense + a ∧
    ∃ e, w'.transactions = w.transactions ++ [e] ∧
      e.transaction_type = "withdraw" ∧ e.amount = a ∧
      e.balance_after = w'.balance := by
  unfold UserWallet.withdraw at h
  split at h
  · exact absurd h (by simp)
  · next hle =>
    split at h
    · exact absurd h (by simp)
    · next hcs =>
      have hcs' : (w.can_spend a).1 = true := by simpa using hcs
      simp only [UserWallet.create_transaction, Prod.mk.injEq, and_true] at h
      subst h
      exact ⟨by omega, hcs', (can_spend_fst_true.mp hcs').2.2,
        rfl, rfl, rfl, rfl, _, rfl, rfl, rfl, rfl⟩

theorem freeze_ok {w w' : UserWallet} {a : Int} {re : String}
    {now : Timestamp} (h : w.freeze_amount a re now = (w', none)) :
    0 < a ∧ a ≤ w.balance ∧
    w'.balance = w.balance - a ∧
    w'.frozen_balance = w.frozen_balance + a ∧
    w'.total_income = w.total_income ∧
    w'.total_expense = w.total_expense ∧
    ∃ e, w'.transactions = w.transactions ++ [e] ∧
      e.transaction_type = "freeze" ∧ e.amount = a ∧
      e.balance_after = w'.balance := by
  unfold UserWallet.freeze_amount at h
  split at h
  · exact absurd h (by simp)
  · next hle =>
    split at h
    · exact absurd h (by simp)
    · next hlt =>
      simp only [UserWallet.create_transaction, Prod.mk.injEq, and_true] at h
      subst h
      exact ⟨by omega, by omega, rfl, rfl, rfl, rfl, _, rfl, rfl, rfl, rfl⟩

theorem unfreeze_ok {w w' : UserWallet} {a : Int} {re : String}
    {now : Timestamp} (h : w.unfreeze_amount a re now = (w', none)) :
    0 < a ∧ a ≤ w.frozen_balance ∧
    w'.balance = w.balance + a ∧
    w'.frozen_balance = w.frozen_balance - a ∧
    w'.total_income = w.total_income ∧
    w'.total_expense = w.total_expense ∧
    ∃ e, w'.transactions = w.transactions ++ [e] ∧
      e.transaction_type = "unfreeze" ∧ e.amount = a ∧
      e.balance_after = w'.balance := by
  unfold UserWallet.unfreeze_amount at h
  split at h
  · exact absurd h (by simp)
  · next hle =>
    split at h
    · exact absurd h (by simp)
    · next hlt =>
      simp only [UserWallet.create_transaction, Prod.mk.injEq, and_true] at h
      subst h
      exact ⟨by omega, by omega, rfl, rfl, rfl, rfl, _, rfl, rfl, rfl, rfl⟩

theorem transfer_ok {w tgt w' tgt' : UserWallet} {a : Int} {de r : String}
    {now : Timestamp}
    (h : w.transfer_to tgt a de r now = ((w', tgt'), none)) :
    0 < a ∧ tgt.currency = w.currency ∧ (w.can_spend a).1 = true ∧
    a ≤ w.balance ∧
    w'.balance = w.balance - a ∧
    w'.frozen_balance = w.frozen_balance ∧
    w'.total_income = w.total_income ∧
    w'.total_expense = w.total_expense + a ∧
    tgt'.balance = tgt.balance + a ∧
    tgt'.frozen_balance = tgt.frozen_balance ∧
    tgt'.total_income = tgt.total_income + a ∧
    tgt'.total_expense = tgt.total_expense ∧
    (∃ e, w'.transactions = w.transactions ++ [e] ∧
      e.transaction_type = "transfer_out" ∧ e.amount = a ∧
      e.balance_after = w'.balance) ∧
    (∃ e, tgt'.transactions = tgt.transactions ++ [e] ∧
      e.transaction_type = "transfer_in" ∧ e.amount = a ∧
      e.balance_after = tgt'.balance) := by
  unfold UserWallet.transfer_to at h
  split at h
  · exact absurd h (by simp)
  · next hle =>
    split at h
    · exact absurd h (by simp)
    · next hcur =>
      split at h
      · exact absurd h (by simp)
      · next hcs =>
        have hcs' : (w.can_spend a).1 = true := by simpa using hcs
        simp only [UserWallet.create_transaction, Prod.mk.injEq, and_true] at h
        obtain ⟨hw, htgt⟩ := h
        subst hw
        subst htgt
        exact ⟨by omega, not_ne_iff.mp hcur, hcs',
          (can_spend_fst_true.mp hcs').2.2, rfl, rfl, rfl, rfl, rfl, rfl, rfl,
          rfl, ⟨_, rfl, rfl, rfl, rfl⟩, ⟨_, rfl, rfl, rfl, rfl⟩⟩

theorem refund_ok {w w' : UserWallet} {i : Nat} {re : String}
    {now : Timestamp} (h : w.process_refund i re now = (w', none)) :
    ∃ t, w.transactions[i]? = some t ∧ t.can_refund now = true ∧
      w'.balance = w.balance + t.amount ∧
      w'.frozen_balance = w.frozen_balance ∧
      w'.total_income = w.total_income + t.amount ∧
      w'.total_expense = w.total_expense ∧
      ∃ e, w'.transactions =
          (w.transactions.set i { t with status := "refunded" }) ++ [e] ∧
        e.transaction_type = "refund" ∧ e.amount = t.amount ∧
        e.reference_id = toString t.id ∧
        e.balance_after = w'.balance := by
  unfold UserWallet.process_refund at h
  split at h
  · exact absurd h (by simp)
  · next t heq =>
    split at h
    · exact absurd h (by simp)
    · next hcr =>
      have hcr' : t.can_refund now = true := by simpa using hcr
      simp only [UserWallet.create_transaction, Prod.mk.injEq, and_true] at h
      subst h
      exact ⟨t, heq, hcr', rfl, rfl, rfl, rfl, _, rfl, rfl, rfl, rfl, rfl⟩

theorem wf_append {w w' : UserWallet} {e : WalletTransaction}
    (hl : ∀ t ∈ w.transactions, 0 ≤ t.amount)
    (htr : w'.transactions = w.transactions ++ [e]) (he : 0 ≤ e.amount) :
    ∀ t ∈ w'.transactions, 0 ≤ t.amount := by
  intro t ht
  rw [htr, List.mem_append, List.mem_singleton] at ht
  rcases ht with ht | ht
  · exact hl t ht
  · exact ht ▸ he

theorem wstep_wf {w w' : UserWallet} (hw : Wf w) (h : WStep w w') : Wf w' := by
  obtain ⟨hb, hf, hl⟩ := hw
  cases h with
  | deposit a s d r now h =>
      obtain ⟨ha, hb', hf', -, -, e, htr, -, hea, -⟩ := deposit_ok h
      exact ⟨by omega, hf' ▸ hf, wf_append hl htr (by omega)⟩
  | withdraw a ds de r now h =>
      obtain ⟨ha, -, hab, hb', hf', -, -, e, htr, -, hea, -⟩ := withdraw_ok h
      exact ⟨by omega, hf' ▸ hf, wf_append hl htr (by omega)⟩
  | freeze a re now h =>
      obtain ⟨ha, hab, hb', hf', -, -, e, htr, -, hea, -⟩ := freeze_ok h
      exact ⟨by omega, by omega, wf_append hl htr (by omega)⟩
  | unfreeze a re now h =>
      obtain ⟨ha, haf, hb', hf', -, -, e, htr, -, hea, -⟩ := unfreeze_ok h
      exact ⟨by omega, by omega, wf_append hl htr (by omega)⟩
  | transferOut tgt tgt' a de r now h =>
      obtain ⟨ha, -, -, hab, hb', hf', -, -, -, -, -, -, ⟨e, htr, -, hea, -⟩, -⟩ :=
        transfer_ok h
      exact ⟨by omega, hf' ▸ hf, wf_append hl htr (by omega)⟩
  | transferIn src src' a de r now h =>
      obtain ⟨ha, -, -, -, -, -, -, -, hb', hf', -, -, -, ⟨e, htr, -, hea, -⟩⟩ :=
        transfer_ok h
      exact ⟨by omega, hf' ▸ hf, wf_append hl htr (by omega)⟩
  | refund i re now h =>
      obtain ⟨t, heq, -, hb', hf', -, -, e, htr, -, hea, -, -⟩ := refund_ok h
      have hta : 0 ≤ t.amount := hl t (List.getElem?_mem heq)
      refine ⟨by omega, hf' ▸ hf, ?_⟩
      intro x hx
      rw [htr, List.mem_append, List.mem_singleton] at hx
      rcases hx with hx | hx
      · rcases List.mem_or_eq_of_mem_set hx with hx | hx
        · exact hl x hx
        · subst hx; exact hta
      · subst hx; omega

theorem wreach_wf {w w' : UserWallet} (hw : Wf w) (h : WReach w w') : Wf w' := by
  induction h with
  | refl => exact hw
  | step w2 w3 hreach hstep ih => exact wstep_wf ih hstep

/-! The claims. -/

/-- C1: starting from any wallet state the model validators admit
(`balance ≥ 0`, `frozen_balance ≥ 0`, every ledger amount `≥ 0`), after any
finite sequence of committed operations among `deposit`, `withdraw`,
`freeze_amount`, `unfreeze_amount`, `transfer_to` (either leg) and
`process_refund`, both `available_balance ≥ 0` and `frozen_balance ≥ 0`
still hold. -/
theorem wallet_nonneg_after_ops (w w' : UserWallet) (hw : Wf w)
    (h : WReach w w') :
    0 ≤ w'.available_balance ∧ 0 ≤ w'.frozen_balance := by
  obtain ⟨hb, hf, -⟩ := wreach_wf hw h
  exact ⟨hb, hf⟩

theorem wallet_nonneg_after_ops_witness :
    0 ≤ witWd.available_balance ∧ 0 ≤ witWd.frozen_balance :=
  wallet_nonneg_after_ops witW witWd
    ⟨by decide, by decide, by decide⟩
    (WReach.step witW witW witWd (WReach.refl witW)
      (WStep.withdraw witW witWd 3000 "manual" "" "" ts1 (by decide)))

/-- C2 counterexample: sender `witW` and receiver `witT` share a currency and
`can_spend(witW, 0)` passes, yet `transfer_to` of amount 0 raises
`ValueError` and appends no ledger entry on either side, leaving both
accounts unchanged — so a transfer whose only stated preconditions hold can
still fail with no `transfer_out`/`transfer_in` entries appended. -/
theorem transfer_zero_amount_refutes :
    (witW.can_spend 0).1 = true ∧
    witT.currency = witW.currency ∧
    witW.transfer_to witT 0 "" "" ts1 =
      ((witW, witT), some "转账金额必须大于0") := by decide

/-- C2 amended: for every transfer of a POSITIVE amount `A` between two
accounts of the same currency where `canSpend(sender, A)` passes, the
sender available balance decreases by exactly `A`, the receiver
increases by exactly `A`, total holdings over the pair are conserved, and
exactly one `transfer_out` entry is appended on the sender and one
`transfer_in` entry on the receiver; for a positive amount and differing
currencies the transfer fails with the currency-mismatch error and neither
account changes. -/
theorem transfer_conservation (w tgt : UserWallet) (a : Int) (de r : String)
    (now : Timestamp) :
    (0 < a → tgt.currency = w.currency → (w.can_spend a).1 = true →
      (w.transfer_to tgt a de r now).2 = none ∧
      (w.transfer_to tgt a de r now).1.1.balance = w.balance - a ∧
      (w.transfer_to tgt a de r now).1.2.balance = tgt.balance + a ∧
      (w.transfer_to tgt a de r now).1.1.total_balance +
          (w.transfer_to tgt a de r now).1.2.total_balance =
        w.total_balance + tgt.total_balance ∧
      (∃ e, (w.transfer_to tgt a de r now).1.1.transactions =
          w.transactions ++ [e] ∧ e.transaction_type = "transfer_out" ∧
          e.amount = a) ∧
      (∃ e, (w.transfer_to tgt a de r now).1.2.transactions =
          tgt.transactions ++ [e] ∧ e.transaction_type = "transfer_in" ∧
          e.amount = a)) ∧
    (∀ tgt2 : UserWallet, 0 < a → tgt2.currency ≠ w.currency →
      w.transfer_to tgt2 a de r now =
        ((w, tgt2), some "货币类型不匹配，无法转账")) := by
  constructor
  · intro ha hcur hcs
    unfold UserWallet.transfer_to
    rw [if_neg (by omega), if_neg (by simp [hcur]), if_neg (by simp [hcs])]
    refine ⟨rfl, rfl, rfl, ?_, ⟨_, rfl, rfl, rfl⟩, ⟨_, rfl, rfl, rfl⟩⟩
    simp only [UserWallet.total_balance, UserWallet.create_transaction]
    omega
  · intro tgt2 ha hne
    unfold UserWallet.transfer_to
    rw [if_neg (by omega), if_pos hne]

theorem transfer_conservation_witness :
    (witW.transfer_to witT 3000 "" "" ts1).2 = none ∧
    (witW.transfer_to witT 3000 "" "" ts1).1.1.balance = witW.balance - 3000 ∧
    witW.transfer_to wUSD 3000 "" "" ts1 =
      ((witW, wUSD), some "货币类型不匹配，无法转账") :=
  ⟨((transfer_conservation witW witT 3000 "" "" ts1).1
      (by decide) (by decide) (by decide)).1,
   ((transfer_conservation witW witT 3000 "" "" ts1).1
      (by decide) (by decide) (by decide)).2.1,
   (transfer_conservation witW wUSD 3000 "" "" ts1).2 wUSD
      (by decide) (by decide)⟩

/-- C3 counterexample: `wClosed` has `wallet_status = closed`, yet a
deposit of a positive amount commits, credits the balance and appends a
ledger entry — refuting both that every mutating operation on a closed
account fails and in particular that a positive deposit on a closed account
fails. -/
theorem closed_deposit_succeeds :
    wClosed.wallet_status = "closed" ∧
    (wClosed.deposit 10000 "manual" "" "" ts1).2 = none ∧
    (wClosed.deposit 10000 "manual" "" "" ts1).1.balance =
      wClosed.balance + 10000 := by decide

/-- C3 amended: the code has no AccountClosed error and `closed` is not
terminal: a deposit of a positive amount succeeds in every status including
`closed`; on a closed account the spending operations gated by `can_spend`
(withdraw, transfer) fail with the generic status-error reason and leave the
account unchanged, while `freeze_amount`, `unfreeze_amount` and
`process_refund` are not status-gated at all and succeed even on a closed
account whenever their own balance/eligibility guards pass. -/
theorem closed_blocks_only_spending (w tgt : UserWallet) (a : Int)
    (s ds de r re : String) (now : Timestamp) :
    (0 < a → (w.deposit a s de r now).2 = none ∧
      (w.deposit a s de r now).1.balance = w.balance + a) ∧
    (0 < a → w.wallet_status = "closed" →
      w.withdraw a ds de r now =
        (w, some ("无法提现: " ++ ("钱包状态异常：" ++ "关闭")))) ∧
    (0 < a → w.wallet_status = "closed" → tgt.currency = w.currency →
      w.transfer_to tgt a de r now =
        ((w, tgt), some ("无法转账: " ++ ("钱包状态异常：" ++ "关闭")))) ∧
    (0 < a → a ≤ w.balance → (w.freeze_amount a re now).2 = none) ∧
    (0 < a → a ≤ w.frozen_balance →
      (w.unfreeze_amount a re now).2 = none) ∧
    (∀ (i : Nat) (t : WalletTransaction), w.transactions[i]? = some t →
      t.can_refund now = true → (w.process_refund i re now).2 = none) := by
  refine ⟨?_, ?_, ?_, ?_, ?_, ?_⟩
  · intro ha
    unfold UserWallet.deposit
    rw [if_neg (by omega)]
    exact ⟨rfl, rfl⟩
  · intro ha hst
    have hcs : w.can_spend a = (false, "钱包状态异常：" ++ "关闭") := by
      unfold UserWallet.can_spend UserWallet.get_wallet_status_display
      rw [hst]
      simp
    unfold UserWallet.withdraw
    rw [if_neg (by omega)]
    simp [hcs]
  · intro ha hst hcur
    have hcs : w.can_spend a = (false, "钱包状态异常：" ++ "关闭") := by
      unfold UserWallet.can_spend UserWallet.get_wallet_status_display
      rw [hst]
      simp
    unfold UserWallet.transfer_to
    rw [if_neg (by omega), if_neg (by simp [hcur])]
    simp [hcs]
  · intro ha hab
    unfold UserWallet.freeze_amount
    rw [if_neg (by omega), if_neg (by omega)]
  · intro ha haf
    unfold UserWallet.unfreeze_amount
    rw [if_neg (by omega), if_neg (by omega)]
  · intro i t hget hcf
    unfold UserWallet.process_refund
    rw [hget]
    dsimp only
    rw [if_neg (by simp [hcf])]

theorem closed_blocks_only_spending_witness :
    wClosedFull.wallet_status = "closed" ∧
    ((wClosed.deposit 10000 "manual" "" "" ts1).2 = none ∧
      (wClosed.deposit 10000 "manual" "" "" ts1).1.balance =
        wClosed.balance + 10000) ∧
    wClosed.withdraw 100 "manual" "" "" ts1 =
      (wClosed, some ("无法提现: " ++ ("钱包状态异常：" ++ "关闭"))) ∧
    (wClosed.freeze_amount 100 "" ts1).2 = none ∧
    (wClosedFull.unfreeze_amount 1000 "" ts1).2 = none ∧
    (wClosedFull.process_refund 0 "" ts1).2 = none :=
  ⟨by decide,
   (closed_blocks_only_spending wClosed witT 10000 "manual" "manual" "" "" ""
      ts1).1 (by decide),
   (closed_blocks_only_spending wClosed witT 100 "manual" "manual" "" "" ""
      ts1).2.1 (by decide) (by decide),
   (closed_blocks_only_spending wClosed witT 100 "manual" "manual" "" "" ""
      ts1).2.2.2.1 (by decide) (by decide),
   (closed_blocks_only_spending wClosedFull witT 1000 "manual" "manual" ""
      "" "" ts1).2.2.2.2.1 (by decide) (by decide),
   (closed_blocks_only_spending wClosedFull witT 1000 "manual" "manual" ""
      "" "" ts1).2.2.2.2.2 0 payTxn (by decide) (by decide)⟩

/-- C4: every committed balance- or frozen-balance-changing operation
appends exactly one new ledger row — exactly two, one per account, for a
transfer — whose `balance_after` equals its account's available balance
right after the effect; `freeze_wallet`/`unfreeze_wallet` append one
zero-amount row with `balance_after` equal to the unchanged balance. -/
theorem ledger_entry_per_mutation
    (w tgt w1 w2 w3 w4 w5 tgt5 w6 : UserWallet) (a1 a2 a3 a4 a5 : Int)
    (i : Nat) (s ds de r re : String) (now : Timestamp)
    (hd : w.deposit a1 s de r now = (w1, none))
    (hwd : w.withdraw a2 ds de r now = (w2, none))
    (hf : w.freeze_amount a3 re now = (w3, none))
    (hu : w.unfreeze_amount a4 re now = (w4, none))
    (ht : w.transfer_to tgt a5 de r now = ((w5, tgt5), none))
    (hr : w.process_refund i re now = (w6, none)) :
    (∃ e, w1.transactions = w.transactions ++ [e] ∧
      e.balance_after = w1.balance) ∧
    (∃ e, w2.transactions = w.transactions ++ [e] ∧
      e.balance_after = w2.balance) ∧
    (∃ e, w3.transactions = w.transactions ++ [e] ∧
      e.balance_after = w3.balance) ∧
    (∃ e, w4.transactions = w.transactions ++ [e] ∧
      e.balance_after = w4.balance) ∧
    ((∃ e, w5.transactions = w.transactions ++ [e] ∧
        e.balance_after = w5.balance) ∧
      (∃ e, tgt5.transactions = tgt.transactions ++ [e] ∧
        e.balance_after = tgt5.balance)) ∧
    (∃ t e, w.transactions[i]? = some t ∧
      w6.transactions =
        (w.transactions.set i { t with status := "refunded" }) ++ [e] ∧
      e.balance_after = w6.balance) ∧
    (∃ e, (w.freeze_wallet re now).transactions = w.transactions ++ [e] ∧
      e.amount = 0 ∧ e.balance_after = w.balance ∧
      (w.freeze_wallet re now).balance = w.balance ∧
      (w.freeze_wallet re now).frozen_balance = w.frozen_balance) ∧
    (∃ e, (w.unfreeze_wallet re now).transactions = w.transactions ++ [e] ∧
      e.amount = 0 ∧ e.balance_after = w.balance ∧
      (w.unfreeze_wallet re now).balance = w.balance ∧
      (w.unfreeze_wallet re now).frozen_balance = w.frozen_balance) := by
  obtain ⟨-, -, -, -, -, e1, h1, -, -, hb1⟩ := deposit_ok hd
  obtain ⟨-, -, -, -, -, -, -, e2, h2, -, -, hb2⟩ := withdraw_ok hwd
  obtain ⟨-, -, -, -, -, -, e3, h3, -, -, hb3⟩ := freeze_ok hf
  obtain ⟨-, -, -, -, -, -, e4, h4, -, -, hb4⟩ := unfreeze_ok hu
  obtain ⟨-, -, -, -, -, -, -, -, -, -, -, -, ⟨e5, h5, -, -, hb5⟩,
    e6, h6, -, -, hb6⟩ := transfer_ok ht
  obtain ⟨t, hget, -, -, -, -, -, e7, h7, -, -, -, hb7⟩ := refund_ok hr
  exact ⟨⟨e1, h1, hb1⟩, ⟨e2, h2, hb2⟩, ⟨e3, h3, hb3⟩, ⟨e4, h4, hb4⟩,
    ⟨⟨e5, h5, hb5⟩, ⟨e6, h6, hb6⟩⟩, ⟨t, e7, hget, h7, hb7⟩,
    ⟨_, rfl, rfl, rfl, rfl, rfl⟩, ⟨_, rfl, rfl, rfl, rfl, rfl⟩⟩

theorem ledger_entry_per_mutation_witness :
    (∃ e, witDep.transactions = witW.transactions ++ [e] ∧
      e.balance_after = witDep.balance) ∧
    (∃ e, witWd.transactions = witW.transactions ++ [e] ∧
      e.balance_after = witWd.balance) ∧
    (∃ e, witFr.transactions = witW.transactions ++ [e] ∧
      e.balance_after = witFr.balance) ∧
    (∃ e, witUf.transactions = witW.transactions ++ [e] ∧
      e.balance_after = witUf.balance) ∧
    ((∃ e, witTrS.transactions = witW.transactions ++ [e] ∧
        e.balance_after = witTrS.balance) ∧
      (∃ e, witTrT.transactions = witT.transactions ++ [e] ∧
        e.balance_after = witTrT.balance)) ∧
    (∃ t e, witW.transactions[0]? = some t ∧
      witRef.transactions =
        (witW.transactions.set 0 { t with status := "refunded" }) ++ [e] ∧
      e.balance_after = witRef.balance) ∧
    (∃ e, (witW.freeze_wallet "" ts1).transactions =
        witW.transactions ++ [e] ∧
      e.amount = 0 ∧ e.balance_after = witW.balance ∧
      (witW.freeze_wallet "" ts1).balance = witW.balance ∧
      (witW.freeze_wallet "" ts1).frozen_balance = witW.frozen_balance) ∧
    (∃ e, (witW.unfreeze_wallet "" ts1).transactions =
        witW.transactions ++ [e] ∧
      e.amount = 0 ∧ e.balance_after = witW.balance ∧
      (witW.unfreeze_wallet "" ts1).balance = witW.balance ∧
      (witW.unfreeze_wallet "" ts1).frozen_balance = witW.frozen_balance) :=
  ledger_entry_per_mutation witW witT witDep witWd witFr witUf witTrS witTrT
    witRef 100 3000 2000 1000 3000 0 "manual" "manual" "" "" "" ts1
    (by decide) (by decide) (by decide) (by decide) (by decide) (by decide)

/-- C5: `can_refund` holds exactly for completed `payment` entries at most
30 days old; a successful refund credits the wallet by the entry amount,
marks the entry `refunded`, appends one `refund` row whose `reference_id`
is the original entry primary key, and refunding the same entry again
fails with the ineligibility error and changes nothing. -/
theorem refund_eligibility_idempotent (w : UserWallet)
    (t : WalletTransaction) (i : Nat) (re re2 : String) (now now2 : Timestamp)
    (hget : w.transactions[i]? = some t) :
    (t.can_refund now = true ↔
      t.transaction_type = "payment" ∧ t.status = "completed" ∧
        now.sec - t.created_at.sec ≤ 30 * 86400) ∧
    (t.can_refund now = false →
      w.process_refund i re now = (w, some "该交易不支持退款")) ∧
    (t.can_refund now = true →
      (w.process_refund i re now).2 = none ∧
      (w.process_refund i re now).1.balance = w.balance + t.amount ∧
      (w.process_refund i re now).1.transactions[i]? =
        some { t with status := "refunded" } ∧
      (∃ e, (w.process_refund i re now).1.transactions =
          (w.transactions.set i { t with status := "refunded" }) ++ [e] ∧
        e.transaction_type = "refund" ∧ e.amount = t.amount ∧
        e.reference_id = toString t.id) ∧
      (w.process_refund i re now).1.process_refund i re2 now2 =
        ((w.process_refund i re now).1, some "该交易不支持退款")) := by
  have hlen : i < w.transactions.length := by
    rcases List.getElem?_eq_some.mp hget with ⟨hl, -⟩
    exact hl
  refine ⟨?_, ?_, ?_⟩
  · unfold WalletTransaction.can_refund
    simp only [List.contains_cons, List.contains_nil, Bool.or_false,
      Bool.and_eq_true, beq_iff_eq, decide_eq_true_eq]
    constructor
    · rintro ⟨⟨h1, h2⟩, h3⟩
      exact ⟨h1, h2, by omega⟩
    · rintro ⟨h1, h2, h3⟩
      exact ⟨⟨h1, h2⟩, by omega⟩
  · intro hcf
    unfold UserWallet.process_refund
    rw [hget]
    dsimp only
    rw [if_pos hcf]
  · intro hcf
    have hsucc : (w.process_refund i re now).2 = none := by
      unfold UserWallet.process_refund
      rw [hget]
      dsimp only
      rw [if_neg (by simp [hcf])]
    have hok : w.process_refund i re now =
        ((w.process_refund i re now).1, none) := by
      rw [← hsucc]
    obtain ⟨t', hget', hcr', hb', hf', hti', hte', e, htr', hty', hamt',
      href', hba'⟩ := refund_ok hok
    have htt : t' = t := by
      rw [hget] at hget'
      exact (Option.some.inj hget').symm
    subst htt
    have hidx : (w.process_refund i re now).1.transactions[i]? =
        some { t' with status := "refunded" } := by
      rw [htr', List.getElem?_append, if_pos (by simpa using hlen)]
      simp [List.getElem?_set_self, hlen]
    refine ⟨hsucc, hb', hidx, ⟨e, htr', hty', hamt', href'⟩, ?_⟩
    generalize hgen : (w.process_refund i re now).1 = w2 at hidx ⊢
    unfold UserWallet.process_refund
    rw [hidx]
    dsimp only
    rw [if_pos (by simp [WalletTransaction.can_refund])]

theorem refund_eligibility_idempotent_witness :
    (payTxn.can_refund ts1 = true ↔
      payTxn.transaction_type = "payment" ∧ payTxn.status = "completed" ∧
        ts1.sec - payTxn.created_at.sec ≤ 30 * 86400) ∧
    (witW.process_refund 0 "" ts1).2 = none ∧
    (witW.process_refund 0 "" ts1).1.balance = witW.balance + payTxn.amount ∧
    (witW.process_refund 0 "" ts1).1.process_refund 0 "" ts1 =
      ((witW.process_refund 0 "" ts1).1, some "该交易不支持退款") :=
  ⟨(refund_eligibility_idempotent witW payTxn 0 "" "" ts1 ts1
      (by decide)).1,
   ((refund_eligibility_idempotent witW payTxn 0 "" "" ts1 ts1
      (by decide)).2.2 (by decide)).1,
   ((refund_eligibility_idempotent witW payTxn 0 "" "" ts1 ts1
      (by decide)).2.2 (by decide)).2.1,
   ((refund_eligibility_idempotent witW payTxn 0 "" "" ts1 ts1
      (by decide)).2.2 (by decide)).2.2.2.2⟩

/-- C6: every operation call that fails a precondition performs no write:
the returned state is exactly the input wallet (so `balance`,
`frozen_balance`, `total_income`, `total_expense` and the ledger row count
are unchanged) and the `ValueError` message is reported. -/
theorem no_partial_effect_on_failure :
    (∀ (w : UserWallet) (a : Int) (s de r : String) (now : Timestamp),
      a ≤ 0 → w.deposit a s de r now = (w, some "充值金额必须大于0")) ∧
    (∀ (w : UserWallet) (a : Int) (ds de r : String) (now : Timestamp),
      0 < a → (w.can_spend a).1 = false →
      w.withdraw a ds de r now =
        (w, some ("无法提现: " ++ (w.can_spend a).2))) ∧
    (∀ (w : UserWallet) (a : Int) (re : String) (now : Timestamp),
      0 < a → w.balance < a →
      w.freeze_amount a re now = (w, some "可用余额不足，无法冻结")) ∧
    (∀ (w : UserWallet) (a : Int) (re : String) (now : Timestamp),
      0 < a → w.frozen_balance < a →
      w.unfreeze_amount a re now = (w, some "冻结余额不足，无法解冻")) ∧
    (∀ (w tgt : UserWallet) (a : Int) (de r : String) (now : Timestamp),
      0 < a → tgt.currency = w.currency → (w.can_spend a).1 = false →
      w.transfer_to tgt a de r now =
        ((w, tgt), some ("无法转账: " ++ (w.can_spend a).2))) ∧
    (∀ (w : UserWallet) (i : Nat) (t : WalletTransaction) (re : String)
        (now : Timestamp),
      w.transactions[i]? = some t → t.can_refund now = false →
      w.process_refund i re now = (w, some "该交易不支持退款")) := by
  refine ⟨?_, ?_, ?_, ?_, ?_, ?_⟩
  · intro w a s de r now ha
    unfold UserWallet.deposit
    rw [if_pos ha]
  · intro w a ds de r now ha hcs
    unfold UserWallet.withdraw
    rw [if_neg (by omega), if_pos hcs]
  · intro w a re now ha hba
    unfold UserWallet.freeze_amount
    rw [if_neg (by omega), if_pos hba]
  · intro w a re now ha hfa
    unfold UserWallet.unfreeze_amount
    rw [if_neg (by omega), if_pos hfa]
  · intro w tgt a de r now ha hcur hcs
    unfold UserWallet.transfer_to
    rw [if_neg (by omega), if_neg (by simp [hcur]), if_pos hcs]
  · intro w i t re now hget hcf
    unfold UserWallet.process_refund
    rw [hget]
    dsimp only
    rw [if_pos hcf]

theorem no_partial_effect_on_failure_witness :
    witW.deposit 0 "manual" "" "" ts1 = (witW, some "充值金额必须大于0") ∧
    wInactive.withdraw 50 "manual" "" "" ts1 =
      (wInactive, some ("无法提现: " ++ (wInactive.can_spend 50).2)) ∧
    witW.freeze_amount 99999 "" ts1 =
      (witW, some "可用余额不足，无法冻结") ∧
    witW.unfreeze_amount 99999 "" ts1 =
      (witW, some "冻结余额不足，无法解冻") ∧
    wInactive.transfer_to witT 50 "" "" ts1 =
      ((wInactive, witT), some ("无法转账: " ++ (wInactive.can_spend 50).2)) ∧
    witW.process_refund 0 "" tsLate = (witW, some "该交易不支持退款") :=
  ⟨no_partial_effect_on_failure.1 witW 0 "manual" "" "" ts1 (by decide),
   no_partial_effect_on_failure.2.1 wInactive 50 "manual" "" "" ts1
      (by decide) (by decide),
   no_partial_effect_on_failure.2.2.1 witW 99999 "" ts1
      (by decide) (by decide),
   no_partial_effect_on_failure.2.2.2.1 witW 99999 "" ts1
      (by decide) (by decide),
   no_partial_effect_on_failure.2.2.2.2.1 wInactive witT 50 "" "" ts1
      (by decide) (by decide) (by decide),
   no_partial_effect_on_failure.2.2.2.2.2 witW 0 payTxn "" tsLate
      (by decide) (by decide)⟩

/-- C7: `can_spend` reports the first applicable failure in the fixed
order: wallet status not `normal`, then wallet deactivated, then
insufficient balance; otherwise it reports eligible. -/
theorem can_spend_priority (w : UserWallet) (a : Int) :
    (w.wallet_status ≠ "normal" →
      w.can_spend a =
        (false, "钱包状态异常：" ++ w.get_wallet_status_display)) ∧
    (w.wallet_status = "normal" → w.is_active = false →
      w.can_spend a = (false, "钱包已被停用")) ∧
    (w.wallet_status = "normal" → w.is_active = true → w.balance < a →
      w.can_spend a = (false, "余额不足")) ∧
    (w.wallet_status = "normal" → w.is_active = true → a ≤ w.balance →
      w.can_spend a = (true, "可以消费")) := by
  refine ⟨?_, ?_, ?_, ?_⟩
  · intro h
    unfold UserWallet.can_spend
    rw [if_pos h]
  · intro h1 h2
    unfold UserWallet.can_spend
    rw [if_neg (by simp [h1]), if_pos h2]
  · intro h1 h2 h3
    unfold UserWallet.can_spend
    rw [if_neg (by simp [h1]), if_neg (by simp [h2]), if_pos h3]
  · intro h1 h2 h3
    unfold UserWallet.can_spend
    rw [if_neg (by simp [h1]), if_neg (by simp [h2]),
      if_neg (Int.not_lt.mpr h3)]

theorem can_spend_priority_witness :
    wClosed.can_spend 100 =
      (false, "钱包状态异常：" ++ wClosed.get_wallet_status_display) ∧
    wInactive.can_spend 100 = (false, "钱包已被停用") ∧
    witW.can_spend 99999 = (false, "余额不足") ∧
    witW.can_spend 3000 = (true, "可以消费") :=
  ⟨(can_spend_priority wClosed 100).1 (by decide),
   (can_spend_priority wInactive 100).2.1 (by decide) (by decide),
   (can_spend_priority witW 99999).2.2.1 (by decide) (by decide) (by decide),
   (can_spend_priority witW 3000).2.2.2 (by decide) (by decide) (by decide)⟩

/-- C8 counterexample: the store holds exactly one wallet for owner 1 and
its currency is USD; the get-or-create endpoint, being keyed on the owner
alone (`OneToOneField`), returns that USD wallet, creates nothing, and no
(owner 1, CNY) account exists afterwards — refuting per-(owner, currency)
get-or-create and the possibility of one owner holding accounts in two
currencies. -/
theorem wallet_per_owner_refutes :
    wUSD.currency = "USD" ∧
    (my_wallet [(1, wUSD)] 1 "alice").1 = wUSD ∧
    (my_wallet [(1, wUSD)] 1 "alice").2.1 = [(1, wUSD)] ∧
    (my_wallet [(1, wUSD)] 1 "alice").2.2 = false ∧
    ((my_wallet [(1, wUSD)] 1 "alice").2.1.filter
      (fun p => p.1 == 1 && p.2.currency == "CNY")) = [] := by decide

/-- C8 amended: the system maintains at most one wallet per OWNER (the
`OneToOneField` uniqueness), hence trivially at most one per
(owner, currency); get-or-create is keyed on the owner alone and returns
the owner existing wallet whatever its currency, or inserts a fresh
wallet with zero balances and default currency CNY, preserving
per-owner uniqueness — so one owner cannot hold accounts in two
currencies. -/
theorem wallet_get_or_create_per_owner (store : List (Nat × UserWallet))
    (uid : Nat) (uname : String) :
    (∀ p, store.find? (fun q => q.1 == uid) = some p →
      my_wallet store uid uname = (p.2, store, false)) ∧
    (store.find? (fun q => q.1 == uid) = none →
      (my_wallet store uid uname).1.balance = 0 ∧
      (my_wallet store uid uname).1.frozen_balance = 0 ∧
      (my_wallet store uid uname).1.currency = "CNY" ∧
      (my_wallet store uid uname).1.user_id = uid ∧
      (my_wallet store uid uname).2.1 =
        store ++ [(uid, (my_wallet store uid uname).1)] ∧
      (my_wallet store uid uname).2.2 = true) ∧
    (UniquePerUser store → UniquePerUser (my_wallet store uid uname).2.1) := by
  refine ⟨?_, ?_, ?_⟩
  · intro p hp
    unfold my_wallet
    rw [hp]
  · intro hn
    unfold my_wallet
    rw [hn]
    exact ⟨rfl, rfl, rfl, rfl, rfl, rfl⟩
  · intro hu
    unfold my_wallet
    cases hfind : store.find? (fun q => q.1 == uid) with
    | some p => exact hu
    | none =>
        dsimp only
        unfold UniquePerUser
        rw [List.pairwise_append]
        refine ⟨hu, List.pairwise_singleton _ _, ?_⟩
        intro p hp q hq
        rw [List.mem_singleton] at hq
        subst hq
        have := List.find?_eq_none.mp hfind p hp
        simpa using this

theorem wallet_get_or_create_per_owner_witness :
    my_wallet [(1, wUSD)] 1 "alice" = (wUSD, [(1, wUSD)], false) ∧
    (my_wallet [] 5 "eve").1.balance = 0 ∧
    (my_wallet [] 5 "eve").1.currency = "CNY" ∧
    UniquePerUser (my_wallet [(1, wUSD)] 2 "bob").2.1 :=
  ⟨(wallet_get_or_create_per_owner [(1, wUSD)] 1 "alice").1 (1, wUSD)
      (by decide),
   ((wallet_get_or_create_per_owner [] 5 "eve").2.1 (by decide)).1,
   ((wallet_get_or_create_per_owner [] 5 "eve").2.1 (by decide)).2.2.1,
   (wallet_get_or_create_per_owner [(1, wUSD)] 2 "bob").2.2
      (by simp [UniquePerUser])⟩

theorem sum_filter_amounts (l : List WalletTransaction)
    (p : WalletTransaction → Bool) :
    ((l.filter p).map (fun t => t.amount)).sum =
      (l.map (fun t => if p t then t.amount else 0)).sum := by
  induction l with
  | nil => rfl
  | cons x xs ih =>
      by_cases h : p x <;> simp [List.filter_cons, h, ih]

/-- C9: the daily aggregate equals the sum of `amount` over exactly the
wallet rows whose type is `withdraw`, `transfer_out` or `payment` and
whose `created_at` date is the given day; the monthly aggregate is the same
sum over the given calendar year and month; and the gate consulted by the
mutating operations, `can_spend`, is insensitive to the ledger, so the
aggregates block nothing. -/
theorem spent_aggregates_pure (w : UserWallet) (d : CalDate) (y m : Int)
    (a : Int) (l : List WalletTransaction) :
    w.get_daily_spent d =
      (w.transactions.map (fun t =>
        if (t.transaction_type = "withdraw" ∨
            t.transaction_type = "transfer_out" ∨
            t.transaction_type = "payment") ∧ t.created_at.date = d
        then t.amount else 0)).sum ∧
    w.get_monthly_spent y m =
      (w.transactions.map (fun t =>
        if (t.transaction_type = "withdraw" ∨
            t.transaction_type = "transfer_out" ∨
            t.transaction_type = "payment") ∧ t.created_at.date.year = y ∧
            t.created_at.date.month = m
        then t.amount else 0)).sum ∧
    ({ w with transactions := l } : UserWallet).can_spend a =
      w.can_spend a := by
  refine ⟨?_, ?_, rfl⟩
  · unfold UserWallet.get_daily_spent
    rw [sum_filter_amounts]
    congr 1
    apply List.map_congr_left
    intro t ht
    congr 1
    simp [List.contains_cons, Bool.and_eq_true, decide_eq_true_eq]
  · unfold UserWallet.get_monthly_spent
    rw [sum_filter_amounts]
    congr 1
    apply List.map_congr_left
    intro t ht
    congr 1
    simp [List.contains_cons, Bool.and_eq_true, decide_eq_true_eq, and_assoc]

/-- C10: freezing an amount `0 < a ≤ balance` conserves total holdings, and
an immediate unfreeze of the same amount restores both balances to their
pre-freeze values; neither operation touches `total_income` or
`total_expense`. -/
theorem freeze_unfreeze_roundtrip (w : UserWallet) (a : Int)
    (re re2 : String) (now now2 : Timestamp) (ha : 0 < a)
    (hab : a ≤ w.balance) (hfz : 0 ≤ w.frozen_balance) :
    (w.freeze_amount a re now).2 = none ∧
    (w.freeze_amount a re now).1.total_balance = w.total_balance ∧
    (w.freeze_amount a re now).1.total_income = w.total_income ∧
    (w.freeze_amount a re now).1.total_expense = w.total_expense ∧
    ((w.freeze_amount a re now).1.unfreeze_amount a re2 now2).2 = none ∧
    ((w.freeze_amount a re now).1.unfreeze_amount a re2 now2).1.balance =
      w.balance ∧
    ((w.freeze_amount a re now).1.unfreeze_amount a re2
        now2).1.frozen_balance = w.frozen_balance ∧
    ((w.freeze_amount a re now).1.unfreeze_amount a re2 now2).1.total_income
      = w.total_income ∧
    ((w.freeze_amount a re now).1.unfreeze_amount a re2
        now2).1.total_expense = w.total_expense := by
  have hs1 : (w.freeze_amount a re now).2 = none := by
    unfold UserWallet.freeze_amount
    rw [if_neg (by omega), if_neg (by omega)]
  have h1 : w.freeze_amount a re now = ((w.freeze_amount a re now).1, none) := by
    rw [← hs1]
  obtain ⟨-, -, hb1, hf1, hi1, he1, -⟩ := freeze_ok h1
  have hs2 : ((w.freeze_amount a re now).1.unfreeze_amount a re2 now2).2 =
      none := by
    unfold UserWallet.unfreeze_amount
    rw [if_neg (by omega), if_neg (by omega)]
  have h2 : (w.freeze_amount a re now).1.unfreeze_amount a re2 now2 =
      (((w.freeze_amount a re now).1.unfreeze_amount a re2 now2).1, none) := by
    rw [← hs2]
  obtain ⟨-, -, hb2, hf2, hi2, he2, -⟩ := unfreeze_ok h2
  unfold UserWallet.total_balance
  refine ⟨hs1, by omega, hi1, he1, hs2, by omega, by omega, ?_, ?_⟩
  · rw [hi2, hi1]
  · rw [he2, he1]

theorem freeze_unfreeze_roundtrip_witness :
    (witW.freeze_amount 3000 "" ts1).2 = none ∧
    (witW.freeze_amount 3000 "" ts1).1.total_balance = witW.total_balance ∧
    ((witW.freeze_amount 3000 "" ts1).1.unfreeze_amount 3000 "" ts1).1.balance
      = witW.balance ∧
    ((witW.freeze_amount 3000 "" ts1).1.unfreeze_amount 3000 ""
        ts1).1.frozen_balance = witW.frozen_balance :=
  ⟨(freeze_unfreeze_roundtrip witW 3000 "" "" ts1 ts1 (by decide) (by decide)
      (by decide)).1,
   (freeze_unfreeze_roundtrip witW 3000 "" "" ts1 ts1 (by decide) (by decide)
      (by decide)).2.1,
   (freeze_unfreeze_roundtrip witW 3000 "" "" ts1 ts1 (by decide) (by decide)
      (by decide)).2.2.2.2.2.1,
   (freeze_unfreeze_roundtrip witW 3000 "" "" ts1 ts1 (by decide) (by decide)
      (by decide)).2.2.2.2.2.2.1⟩

end LoudWallet
